import Mathlib

/-!
Verification of the Flux streaming pipeline (gateway + inference worker)
against its design specification.  The Python sources
`services/worker/worker.py` and `services/gateway/gateway.py` are shallowly
embedded: machine floats become exact rationals, wall-clock readings become
environment-supplied rational timestamps, and the effects of a run (bus
publishes, subprocess spawn/terminate, queue pushes) become explicit traces.
-/

namespace Flux

/-- Default queue name (`QUEUE_NAME = os.getenv("QUEUE_NAME", "llm_queue")`). -/
def QUEUE_NAME : String := "llm_queue"

/-- Default channel name root (`CHANNEL_PREFIX = os.getenv("CHANNEL_PREFIX", "task_channel")`). -/
def CHANNEL_PFX : String := "task_channel"

/-- Gateway default for max_tokens (`DEFAULT_MAX_TOKENS = int(os.getenv(..., 2048))`). -/
def DEFAULT_MAX_TOKENS : Int := 2048

/-- Channel for a request: `f"{CHANNEL_PREFIX}:{request_id}"` (worker.py line 205,
gateway.py line 838). -/
def channelFor (request_id : String) : String := CHANNEL_PFX ++ ":" ++ request_id

/-- ASCII decimal digit, the `\d` class of the worker's regular expressions
(restricted to ASCII; the source's Unicode digits are not exercised here). -/
def pyIsDigit (c : Char) : Bool := '0' ≤ c && c ≤ '9'

/-- The `[\d.]` character class of `parse_llama_metrics`. -/
def pyIsDigitDot (c : Char) : Bool := pyIsDigit c || c == '.'

/-- Python whitespace (`\s`, and the default set stripped by `str.strip`),
restricted to its ASCII members: space, tab, newline, carriage return,
vertical tab, form feed. -/
def pyIsSpace (c : Char) : Bool :=
  c == ' ' || c == '\t' || c == '\n' || c == '\r' ||
  c == Char.ofNat 11 || c == Char.ofNat 12

/-- Python's `str.isprintable` on a single character, restricted to ASCII:
codepoints 0x20–0x7E are printable, control characters are not.  Non-ASCII
codepoints are conservatively treated as printable (as almost all characters
an inference engine emits are). -/
def pyIsPrintable (c : Char) : Bool :=
  (0x20 ≤ c.toNat && c.toNat ≤ 0x7E) || 0x80 ≤ c.toNat

/-- Worker filter deciding whether a character read from the subprocess is
published as a token: `char.isprintable() or char in ['\n', '\t', ' ']`
(worker.py line 250). -/
def passesTokenFilter (c : Char) : Bool :=
  pyIsPrintable c || c == '\n' || c == '\t' || c == ' '

/-- Length of the longest run of characters satisfying `p` at the head of the
list; used for the greedy quantifiers of the embedded regular expressions. -/
def countLeading (p : Char → Bool) : List Char → Nat
  | [] => 0
  | c :: cs => if p c then countLeading p cs + 1 else 0

theorem countLeading_le (p : Char → Bool) (cs : List Char) :
    countLeading p cs ≤ cs.length := by
  induction cs with
  | nil => simp [countLeading]
  | cons c cs ih =>
    simp only [countLeading, List.length_cons]
    split <;> omega

/-- One item of the three regular expressions used by `parse_llama_metrics`:
a literal, greedy `\s*`, a capturing greedy `(\d+)`, a capturing greedy
`([\d.]+)`, or the lazy `.*?`. -/
inductive RItem
  | lit (s : String)
  | wsStar
  | capDigits
  | capDigitDot
  | lazyAny
deriving DecidableEq

/-- Fuel-indexed matcher for a sequence of `RItem`s anchored at the head of
`cs`, returning the captured groups in order.  The greedy classes take their
maximal run: in the three patterns of `parse_llama_metrics` every greedy
quantifier is followed by a literal (or a character class) that cannot start
with a character of the quantifier's class, so maximal munch is extensionally
equal to Python's backtracking semantics for these patterns.  The lazy `.*?`
tries the shortest expansion first and does not cross a newline (no DOTALL
flag in the source).  Every recursive call strictly decreases
`items.length + cs.length`, so the fuel supplied by `matchItems` below is
never exhausted; the fuel only makes the recursion structural. -/
def matchItemsF : Nat → List RItem → List Char → Option (List String)
  | 0, _, _ => none
  | _ + 1, [], _ => some []
  | fuel + 1, .lit s :: rest, cs =>
    if s.data.isPrefixOf cs then matchItemsF fuel rest (cs.drop s.length) else none
  | fuel + 1, .wsStar :: rest, cs => matchItemsF fuel rest (cs.drop (countLeading pyIsSpace cs))
  | fuel + 1, .capDigits :: rest, cs =>
    let k := countLeading pyIsDigit cs
    if k = 0 then none else
      match matchItemsF fuel rest (cs.drop k) with
      | some caps => some ((cs.take k).asString :: caps)
      | none => none
  | fuel + 1, .capDigitDot :: rest, cs =>
    let k := countLeading pyIsDigitDot cs
    if k = 0 then none else
      match matchItemsF fuel rest (cs.drop k) with
      | some caps => some ((cs.take k).asString :: caps)
      | none => none
  | fuel + 1, .lazyAny :: rest, cs =>
    match matchItemsF fuel rest cs with
    | some caps => some caps
    | none =>
      match cs with
      | [] => none
      | c :: cs' => if c == '\n' then none else matchItemsF fuel (.lazyAny :: rest) cs'

/-- Anchored match of a pattern at the head of `cs` (fuel instantiated so it
cannot run out). -/
def matchItems (items : List RItem) (cs : List Char) : Option (List String) :=
  matchItemsF (items.length + cs.length + 1) items cs

/-- Embedding of `re.search`: try an anchored match at every position from the
left, returning the captures of the leftmost successful match. -/
def reSearch (items : List RItem) : List Char → Option (List String)
  | [] => matchItems items []
  | c :: cs' =>
    match matchItems items (c :: cs') with
    | some caps => some caps
    | none => reSearch items cs'

/-- Numeric value of a digits-and-dots string, as Python's `float` computes it
on such strings (exact rational instead of binary floating point). -/
def digitsVal (ds : List Char) : Nat :=
  ds.foldl (fun a c => 10 * a + (c.toNat - '0'.toNat)) 0

/-- Python `float()` applied to a string captured by `[\d.]+`: it raises
`ValueError` when the string has more than one dot or no digit at all
(for example `1.2.3` or `.`), and otherwise denotes an exact decimal.
The error carries the message of the `ValueError` (original quotation marks
around the offending string omitted). -/
def pyFloat (s : String) : Except String ℚ :=
  if s.data.count '.' ≤ 1 ∧ s.data.any pyIsDigit then
    match s.splitOn "." with
    | [i] => .ok (digitsVal i.data)
    | [i, f] => .ok ((digitsVal i.data : ℚ) + (digitsVal f.data : ℚ) / 10 ^ f.length)
    | _ => .ok 0
  else
    .error ("could not convert string to float: " ++ s)

/-- Python `int()` on a `\d+` capture (always succeeds). -/
def pyInt (s : String) : Nat := digitsVal s.data

/-- Pattern `prompt eval time\s*=\s*([\d.]+)\s*ms\s*/\s*(\d+)\s*tokens.*?([\d.]+)\s*tokens per second`. -/
def promptEvalPattern : List RItem :=
  [.lit "prompt eval time", .wsStar, .lit "=", .wsStar, .capDigitDot, .wsStar,
   .lit "ms", .wsStar, .lit "/", .wsStar, .capDigits, .wsStar, .lit "tokens",
   .lazyAny, .capDigitDot, .wsStar, .lit "tokens per second"]

/-- Pattern `eval time\s*=\s*([\d.]+)\s*ms\s*/\s*(\d+)\s*runs.*?([\d.]+)\s*tokens per second`. -/
def evalPattern : List RItem :=
  [.lit "eval time", .wsStar, .lit "=", .wsStar, .capDigitDot, .wsStar,
   .lit "ms", .wsStar, .lit "/", .wsStar, .capDigits, .wsStar, .lit "runs",
   .lazyAny, .capDigitDot, .wsStar, .lit "tokens per second"]

/-- Pattern `total time\s*=\s*([\d.]+)\s*ms`. -/
def totalTimePattern : List RItem :=
  [.lit "total time", .wsStar, .lit "=", .wsStar, .capDigitDot, .wsStar, .lit "ms"]

/-- Dataclass `LlamaMetrics` of worker.py with its zero defaults. -/
structure LlamaMetrics where
  prompt_tokens : Nat := 0
  generated_tokens : Nat := 0
  prompt_eval_time_ms : ℚ := 0
  generation_time_ms : ℚ := 0
  prompt_tps : ℚ := 0
  generation_tps : ℚ := 0
  total_time_ms : ℚ := 0
deriving DecidableEq

/-- Function `parse_llama_metrics` of worker.py: three independent
`re.search` probes against the subprocess's stderr text; a missing match
leaves the corresponding fields at their zero defaults.  A successful match
feeds its first and third captures to `float()`, which can raise (`Except.error`)
on a capture with more than one dot — that exception is NOT caught in the
source and propagates out of the function. -/
def parse_llama_metrics (stderr_output : String) : Except String LlamaMetrics := do
  let m0 : LlamaMetrics := {}
  let m1 ← match reSearch promptEvalPattern stderr_output.data with
    | some [g1, g2, g3] => do
      let v1 ← pyFloat g1
      let v3 ← pyFloat g3
      pure { m0 with prompt_eval_time_ms := v1, prompt_tokens := pyInt g2, prompt_tps := v3 }
    | _ => pure m0
  let m2 ← match reSearch evalPattern stderr_output.data with
    | some [g1, g2, g3] => do
      let v1 ← pyFloat g1
      let v3 ← pyFloat g3
      pure { m1 with generation_time_ms := v1, generated_tokens := pyInt g2, generation_tps := v3 }
    | _ => pure m1
  match reSearch totalTimePattern stderr_output.data with
  | some [g1] => do
    let v1 ← pyFloat g1
    pure { m2 with total_time_ms := v1 }
  | _ => pure m2

/-- Banker's rounding of a rational to an integer, the ideal semantics of
Python's built-in `round`. -/
def roundHalfEven (q : ℚ) : ℤ :=
  let f := ⌊q⌋
  let r := q - f
  if r < 1 / 2 then f
  else if 1 / 2 < r then f + 1
  else if f % 2 = 0 then f else f + 1

/-- Python `round(x, 2)` (exact-rational semantics). -/
def round2 (q : ℚ) : ℚ := (roundHalfEven (q * 100) : ℚ) / 100

/-- Metrics dictionary of the `complete` message built in `stream_inference`
(worker.py lines 277–294). -/
structure CompleteMetrics where
  ttft_ms : ℚ
  total_time_ms : ℚ
  generation_time_ms : ℚ
  tokens_per_second : ℚ
  llama_prompt_tokens : Nat
  llama_prompt_eval_ms : ℚ
  llama_prompt_tps : ℚ
  llama_generation_tokens : Nat
  llama_generation_ms : ℚ
  llama_generation_tps : ℚ
deriving DecidableEq

/-- One message published on the Stream Bus, as serialized by the worker:
`start` and `token` carry a wall-clock timestamp, `complete` carries the token
count and metrics, `error` carries a description. -/
inductive Msg
  | start (request_id : String) (timestamp : ℚ)
  | token (content : Char) (request_id : String) (token_index : Nat) (timestamp : ℚ)
  | complete (request_id : String) (token_count : Nat) (metrics : CompleteMetrics)
  | error (description : String) (request_id : String)
deriving DecidableEq

/-- Message kinds, for stating the `start token* (complete|error)` pattern. -/
inductive MsgKind
  | start
  | token
  | complete
  | error
deriving DecidableEq

/-- Kind of a message. -/
def msgKind : Msg → MsgKind
  | .start _ _ => .start
  | .token _ _ _ _ => .token
  | .complete _ _ _ => .complete
  | .error _ _ => .error

/-- One externally visible effect of a worker run: a bus publish, the spawn of
the generation subprocess, or its termination from the `finally` block. -/
inductive Effect
  | publish (channel : String) (m : Msg)
  | spawn
  | terminate
deriving DecidableEq

/-- Point at which the modelled execution of `stream_inference` raises:
`launch` is a `subprocess.Popen` failure, `read k` an I/O error on the
(0-based) `k`-th `stdout.read(1)` call, `wait` a failure in
`wait()`/`stderr.read()` after end-of-stream. -/
inductive FailPoint
  | launch
  | read (k : Nat)
  | wait
deriving DecidableEq

/-- Environment of one `stream_inference` run: what the subprocess writes to
stdout (in order) and stderr, the wall-clock readings (exact rationals), and
the optional exception point with the text of the raised exception.  Bus
publishes themselves are modelled as always succeeding (`publish` is
fire-and-forget per the Stream Bus contract). -/
structure RunEnv where
  output : List Char
  stderr : String
  job_start : ℚ
  charTime : Nat → ℚ
  end_time : ℚ
  fail : Option FailPoint
  errMsg : String

/-- Token-publishing read loop of `stream_inference` (worker.py lines 237–258):
character `i` of the stream is read at time `charTime i`; a character passing
the printability filter increments the counter and is published with
`token_index` equal to the counter.  `i` is the index of the next character,
`cnt` the number of tokens published so far. -/
def readLoop (rid : String) (ct : Nat → ℚ) : List Char → Nat → Nat → List Msg
  | [], _, _ => []
  | c :: cs, i, cnt =>
    if passesTokenFilter c then
      .token c rid (cnt + 1) (ct i) :: readLoop rid ct cs (i + 1) (cnt + 1)
    else
      readLoop rid ct cs (i + 1) cnt

/-- Time at which `first_token_time` is captured (worker.py line 245): the
read time of the first character whose `strip()` is non-empty, i.e. the first
non-whitespace character — whether or not that character is later published. -/
def firstTokenTime (ct : Nat → ℚ) : List Char → Nat → Option ℚ
  | [], _ => none
  | c :: cs, i => if pyIsSpace c then firstTokenTime ct cs (i + 1) else some (ct i)

/-- Wall-clock duration `total_time = end_time - job_start_time` of a run
(worker.py line 266); `end_time` is read after `wait()`/`stderr.read()`. -/
def totalTime (env : RunEnv) : ℚ := env.end_time - env.job_start

/-- Time to first token, `(first_token_time - job_start_time) if first_token_time else 0`
(worker.py line 267). -/
def ttftVal (env : RunEnv) : ℚ :=
  match firstTokenTime env.charTime env.output 0 with
  | some t => t - env.job_start
  | none => 0

/-- The `generation_time` of worker.py line 268:
`(end_time - first_token_time) if first_token_time else total_time`.  Its
upper endpoint is the post-exit `end_time`, not the read time of the last
token. -/
def generationTime (env : RunEnv) : ℚ :=
  match firstTokenTime env.charTime env.output 0 with
  | some t => env.end_time - t
  | none => totalTime env

/-- Driver-side metrics of the `complete` message (worker.py lines 264–293):
`tokens_per_second = token_count / generation_time if generation_time > 0 else 0`,
and every `*_ms`/`tps` figure is rounded to two decimals as published. -/
def driverMetrics (env : RunEnv) (token_count : Nat) (lm : LlamaMetrics) : CompleteMetrics :=
  let tps := if 0 < generationTime env then (token_count : ℚ) / generationTime env else 0
  { ttft_ms := round2 (ttftVal env * 1000)
    total_time_ms := round2 (totalTime env * 1000)
    generation_time_ms := round2 (generationTime env * 1000)
    tokens_per_second := round2 tps
    llama_prompt_tokens := lm.prompt_tokens
    llama_prompt_eval_ms := lm.prompt_eval_time_ms
    llama_prompt_tps := round2 lm.prompt_tps
    llama_generation_tokens := lm.generated_tokens
    llama_generation_ms := lm.generation_time_ms
    llama_generation_tps := round2 lm.generation_tps }

/-- Effect trace of `stream_inference` (worker.py lines 188–316).  The `start`
message is published before the subprocess is spawned; each filtered character
is published in read order; on normal end-of-stream the worker waits for the
process, parses stderr and publishes `complete` — unless `parse_llama_metrics`
raises, in which case the `except` block publishes `error` (the process has
already exited, so the `finally` block does not terminate it).  A `launch`
failure publishes `error` with no spawn (the global process handle is `None`
from the previous job's `finally`); a mid-read failure leaves the process
running, so `error` is followed by `terminate`; a failure in `wait()`/stderr
reading happens after the process exited, so no `terminate` either. -/
def stream_inference (env : RunEnv) (rid : String) : List Effect :=
  let ch := channelFor rid
  let startEff := Effect.publish ch (.start rid env.job_start)
  match env.fail with
  | some .launch => [startEff, .publish ch (.error env.errMsg rid)]
  | some (.read k) =>
    startEff :: .spawn ::
      (readLoop rid env.charTime (env.output.take k) 0 0).map (Effect.publish ch) ++
      [.publish ch (.error env.errMsg rid), .terminate]
  | some .wait =>
    startEff :: .spawn ::
      (readLoop rid env.charTime env.output 0 0).map (Effect.publish ch) ++
      [.publish ch (.error env.errMsg rid)]
  | none =>
    let toks := readLoop rid env.charTime env.output 0 0
    let token_count := (env.output.filter passesTokenFilter).length
    match parse_llama_metrics env.stderr with
    | .error e =>
      startEff :: .spawn :: toks.map (Effect.publish ch) ++ [.publish ch (.error e rid)]
    | .ok lm =>
      startEff :: .spawn :: toks.map (Effect.publish ch) ++
        [.publish ch (.complete rid token_count (driverMetrics env token_count lm))]

/-- Model of a decoded JSON value as Python uses it (JSON numbers are modelled
as integers; floats are not exercised by any claim). -/
inductive PyVal
  | vNone
  | vBool (b : Bool)
  | vStr (s : String)
  | vInt (n : Int)
  | vList (l : List PyVal)
  | vDict (l : List (String × PyVal))

/-- Python truthiness of a value. -/
def pyTruthy : PyVal → Bool
  | .vNone => false
  | .vBool b => b
  | .vStr s => !s.isEmpty
  | .vInt n => n != 0
  | .vList l => !l.isEmpty
  | .vDict l => !l.isEmpty

/-- Python `dict.get(k)` (returns `None` on a missing key); JSON objects have
unique keys, modelled as first-match lookup on the association list. -/
def dictGet (l : List (String × PyVal)) (k : String) : PyVal :=
  match l.find? (fun p => p.1 == k) with
  | some p => p.2
  | none => .vNone

/-- Python `dict.get(k, d)` with a default. -/
def dictGetD (l : List (String × PyVal)) (k : String) (d : PyVal) : PyVal :=
  match l.find? (fun p => p.1 == k) with
  | some p => p.2
  | none => d

/-- Effect trace of `process_job` (worker.py lines 319–343) on one queue
entry.  `decoded` is the outcome of `json.loads(job_data)`: `none` models a
`JSONDecodeError` (caught, nothing published); a decoded non-dict raises
`AttributeError` at `job.get`, also caught with nothing published.  A dict
missing a truthy `request_id` or `prompt` is logged and dropped before any
publish.  With truthy string values the job is handed to `stream_inference`;
truthy non-string identifiers are modelled as aborting before any publish (in
the source a non-sliceable value raises `TypeError` in the logging f-string,
caught without publishing; no claim depends on sequence-valued fields). -/
def process_job (decoded : Option PyVal) (env : RunEnv) : List Effect :=
  match decoded with
  | none => []
  | some (.vDict fields) =>
    let rid := dictGet fields "request_id"
    let prompt := dictGet fields "prompt"
    if pyTruthy rid && pyTruthy prompt then
      match rid with
      | .vStr r => stream_inference env r
      | _ => []
    else []
  | some _ => []

/-- Startup environment of the worker: does
`{LLAMA_BIN_PATH}/llama-completion` exist, is it executable, does
`{LLAMA_BIN_PATH}/llama-cli --version` run (carrying its version text), does
the file at `MODEL_PATH` exist and what is its size in bytes. -/
structure WorkerFS where
  completion_exists : Bool
  completion_executable : Bool
  llama_cli_runs : Option String
  model_exists : Bool
  model_size : Nat

/-- Function `verify_llama_binary` of worker.py (lines 117–135): checks that
the `llama-completion` file exists, then that running `llama-cli --version`
does not raise.  Executability of `llama-completion` itself is never tested. -/
def verify_llama_binary (fs : WorkerFS) : Bool :=
  fs.completion_exists && fs.llama_cli_runs.isSome

/-- Function `verify_model` of worker.py (lines 138–146): checks only
`os.path.exists(MODEL_PATH)`; the size is read for logging and not compared
to anything, so an empty file passes. -/
def verify_model (fs : WorkerFS) : Bool :=
  fs.model_exists

/-- Outcome of the worker's `main`: an early `sys.exit` with a code, or a run
of the dequeue loop with its published-effect trace. -/
inductive MainResult
  | exited (code : Nat)
  | ran (trace : List Effect)
deriving DecidableEq

/-- Dequeue loop of `main` (worker.py lines 380–397): each queue entry is
decoded and processed in order; `process_job` and `stream_inference` catch
their own exceptions, so one failing job never stops the loop.  Each entry is
paired with the `RunEnv` its subprocess run would see. -/
def worker_loop (jobs : List (Option PyVal × RunEnv)) : List Effect :=
  match jobs with
  | [] => []
  | j :: rest => process_job j.1 j.2 ++ worker_loop rest

/-- Function `main` of worker.py (lines 346–399): verify the binary, then the
model, exiting with status 1 if either check fails, before connecting to the
queue or touching any job; otherwise run the dequeue loop. -/
def worker_main (fs : WorkerFS) (jobs : List (Option PyVal × RunEnv)) : MainResult :=
  if !verify_llama_binary fs then .exited 1
  else if !verify_model fs then .exited 1
  else .ran (worker_loop jobs)

/-- Gateway job payload pushed on the queue:
`{"request_id": ..., "prompt": ..., "max_tokens": ...}`. -/
structure GwJob where
  request_id : String
  prompt : PyVal
  max_tokens : PyVal

/-- One externally visible effect of a gateway handler: an error reply on the
client transport, a Stream Bus subscription, or a queue push. -/
inductive GwEffect
  | wsSendError (err : String)
  | subscribe (channel : String)
  | rpush (queue : String) (job : GwJob)

/-- Request-acceptance phase of `websocket_generate` (gateway.py lines
818–842), after the connection is accepted and the request JSON decoded to
the dict `fields`: read `prompt` (default `""`) and `max_tokens` (default
`DEFAULT_MAX_TOKENS`), reject a falsy prompt with an error reply before any
queue or bus interaction, otherwise subscribe the per-request channel and
only then push the job. -/
def websocket_generate_begin (request_id : String) (fields : List (String × PyVal)) :
    List GwEffect :=
  let prompt := dictGetD fields "prompt" (.vStr "")
  let max_tokens := dictGetD fields "max_tokens" (.vInt DEFAULT_MAX_TOKENS)
  if !pyTruthy prompt then
    [.wsSendError "Prompt is required"]
  else
    [.subscribe (channelFor request_id),
     .rpush QUEUE_NAME ⟨request_id, prompt, max_tokens⟩]

/-- Handler `api_generate` of gateway.py (lines 900–921).  Its request model
only requires `prompt` to be a string (a missing prompt is rejected by
validation before the handler runs), so the handler receives any string —
including the empty one — and unconditionally pushes the job. -/
def api_generate (request_id : String) (prompt : String) (max_tokens : Int) :
    List GwEffect :=
  [.rpush QUEUE_NAME ⟨request_id, .vStr prompt, .vInt max_tokens⟩]

/-- Messages published on channel `ch` in an effect trace, in order. -/
def publishedOn (ch : String) (tr : List Effect) : List Msg :=
  tr.filterMap fun e =>
    match e with
    | .publish c m => if c == ch then some m else none
    | _ => none

/-- Contents of the token messages of a message sequence, in order. -/
def tokenContents (msgs : List Msg) : List Char :=
  msgs.filterMap fun m =>
    match m with
    | .token c _ _ _ => some c
    | _ => none

/-- Indices carried by the token messages of a message sequence, in order. -/
def tokenIndices (msgs : List Msg) : List Nat :=
  msgs.filterMap fun m =>
    match m with
    | .token _ _ i _ => some i
    | _ => none

/-- Timestamps carried by the token messages of a message sequence. -/
def tokenTimes (msgs : List Msg) : List ℚ :=
  msgs.filterMap fun m =>
    match m with
    | .token _ _ _ t => some t
    | _ => none

/-- Token counts carried by the complete messages of a message sequence. -/
def completeCounts (msgs : List Msg) : List Nat :=
  msgs.filterMap fun m =>
    match m with
    | .complete _ tc _ => some tc
    | _ => none

/-- The `tokens_per_second` metric of each complete message of a sequence. -/
def completeTps (msgs : List Msg) : List ℚ :=
  msgs.filterMap fun m =>
    match m with
    | .complete _ _ mm => some mm.tokens_per_second
    | _ => none

/-- Number of queue pushes in a gateway effect trace. -/
def queuePushes (tr : List GwEffect) : Nat :=
  tr.countP fun e =>
    match e with
    | .rpush _ _ => true
    | _ => false

/-- Number of bus subscriptions in a gateway effect trace. -/
def busSubscribes (tr : List GwEffect) : Nat :=
  tr.countP fun e =>
    match e with
    | .subscribe _ => true
    | _ => false

/-- Messages a subscriber of the request's channel observes for one driver
run: the publishes of `stream_inference` on `channelFor rid`, in order. -/
def driverMsgs (env : RunEnv) (rid : String) : List Msg :=
  publishedOn (channelFor rid) (stream_inference env rid)

@[simp] theorem publishedOn_nil (ch : String) : publishedOn ch [] = [] := rfl

@[simp] theorem publishedOn_publish_self (ch : String) (m : Msg) (tr : List Effect) :
    publishedOn ch (Effect.publish ch m :: tr) = m :: publishedOn ch tr := by
  simp [publishedOn]

@[simp] theorem publishedOn_spawn (ch : String) (tr : List Effect) :
    publishedOn ch (Effect.spawn :: tr) = publishedOn ch tr := by
  simp [publishedOn]

@[simp] theorem publishedOn_terminate (ch : String) (tr : List Effect) :
    publishedOn ch (Effect.terminate :: tr) = publishedOn ch tr := by
  simp [publishedOn]

@[simp] theorem publishedOn_append (ch : String) (tr₁ tr₂ : List Effect) :
    publishedOn ch (tr₁ ++ tr₂) = publishedOn ch tr₁ ++ publishedOn ch tr₂ := by
  simp [publishedOn, List.filterMap_append]

@[simp] theorem publishedOn_map_publish (ch : String) (msgs : List Msg) :
    publishedOn ch (msgs.map (Effect.publish ch)) = msgs := by
  induction msgs with
  | nil => rfl
  | cons m ms ih => simp [ih]

@[simp] theorem tokenContents_nil : tokenContents [] = [] := rfl

@[simp] theorem tokenContents_append (a b : List Msg) :
    tokenContents (a ++ b) = tokenContents a ++ tokenContents b := by
  simp [tokenContents, List.filterMap_append]

@[simp] theorem tokenContents_cons_start (rid : String) (t : ℚ) (msgs : List Msg) :
    tokenContents (.start rid t :: msgs) = tokenContents msgs := by
  simp [tokenContents]

@[simp] theorem tokenContents_cons_token (c : Char) (rid : String) (i : Nat) (t : ℚ)
    (msgs : List Msg) :
    tokenContents (.token c rid i t :: msgs) = c :: tokenContents msgs := by
  simp [tokenContents]

@[simp] theorem tokenContents_cons_complete (rid : String) (tc : Nat) (m : CompleteMetrics)
    (msgs : List Msg) :
    tokenContents (.complete rid tc m :: msgs) = tokenContents msgs := by
  simp [tokenContents]

@[simp] theorem tokenContents_cons_error (d rid : String) (msgs : List Msg) :
    tokenContents (.error d rid :: msgs) = tokenContents msgs := by
  simp [tokenContents]

@[simp] theorem tokenIndices_nil : tokenIndices [] = [] := rfl

@[simp] theorem tokenIndices_append (a b : List Msg) :
    tokenIndices (a ++ b) = tokenIndices a ++ tokenIndices b := by
  simp [tokenIndices, List.filterMap_append]

@[simp] theorem tokenIndices_cons_start (rid : String) (t : ℚ) (msgs : List Msg) :
    tokenIndices (.start rid t :: msgs) = tokenIndices msgs := by
  simp [tokenIndices]

@[simp] theorem tokenIndices_cons_token (c : Char) (rid : String) (i : Nat) (t : ℚ)
    (msgs : List Msg) :
    tokenIndices (.token c rid i t :: msgs) = i :: tokenIndices msgs := by
  simp [tokenIndices]

@[simp] theorem tokenIndices_cons_complete (rid : String) (tc : Nat) (m : CompleteMetrics)
    (msgs : List Msg) :
    tokenIndices (.complete rid tc m :: msgs) = tokenIndices msgs := by
  simp [tokenIndices]

@[simp] theorem tokenIndices_cons_error (d rid : String) (msgs : List Msg) :
    tokenIndices (.error d rid :: msgs) = tokenIndices msgs := by
  simp [tokenIndices]

@[simp] theorem tokenTimes_nil : tokenTimes [] = [] := rfl

@[simp] theorem tokenTimes_append (a b : List Msg) :
    tokenTimes (a ++ b) = tokenTimes a ++ tokenTimes b := by
  simp [tokenTimes, List.filterMap_append]

@[simp] theorem tokenTimes_cons_start (rid : String) (t : ℚ) (msgs : List Msg) :
    tokenTimes (.start rid t :: msgs) = tokenTimes msgs := by
  simp [tokenTimes]

@[simp] theorem tokenTimes_cons_token (c : Char) (rid : String) (i : Nat) (t : ℚ)
    (msgs : List Msg) :
    tokenTimes (.token c rid i t :: msgs) = t :: tokenTimes msgs := by
  simp [tokenTimes]

@[simp] theorem tokenTimes_cons_complete (rid : String) (tc : Nat) (m : CompleteMetrics)
    (msgs : List Msg) :
    tokenTimes (.complete rid tc m :: msgs) = tokenTimes msgs := by
  simp [tokenTimes]

@[simp] theorem tokenTimes_cons_error (d rid : String) (msgs : List Msg) :
    tokenTimes (.error d rid :: msgs) = tokenTimes msgs := by
  simp [tokenTimes]

@[simp] theorem completeCounts_nil : completeCounts [] = [] := rfl

@[simp] theorem completeCounts_append (a b : List Msg) :
    completeCounts (a ++ b) = completeCounts a ++ completeCounts b := by
  simp [completeCounts, List.filterMap_append]

@[simp] theorem completeCounts_cons_start (rid : String) (t : ℚ) (msgs : List Msg) :
    completeCounts (.start rid t :: msgs) = completeCounts msgs := by
  simp [completeCounts]

@[simp] theorem completeCounts_cons_token (c : Char) (rid : String) (i : Nat) (t : ℚ)
    (msgs : List Msg) :
    completeCounts (.token c rid i t :: msgs) = completeCounts msgs := by
  simp [completeCounts]

@[simp] theorem completeCounts_cons_complete (rid : String) (tc : Nat) (m : CompleteMetrics)
    (msgs : List Msg) :
    completeCounts (.complete rid tc m :: msgs) = tc :: completeCounts msgs := by
  simp [completeCounts]

@[simp] theorem completeCounts_cons_error (d rid : String) (msgs : List Msg) :
    completeCounts (.error d rid :: msgs) = completeCounts msgs := by
  simp [completeCounts]

@[simp] theorem completeTps_nil : completeTps [] = [] := rfl

@[simp] theorem completeTps_append (a b : List Msg) :
    completeTps (a ++ b) = completeTps a ++ completeTps b := by
  simp [completeTps, List.filterMap_append]

@[simp] theorem completeTps_cons_start (rid : String) (t : ℚ) (msgs : List Msg) :
    completeTps (.start rid t :: msgs) = completeTps msgs := by
  simp [completeTps]

@[simp] theorem completeTps_cons_token (c : Char) (rid : String) (i : Nat) (t : ℚ)
    (msgs : List Msg) :
    completeTps (.token c rid i t :: msgs) = completeTps msgs := by
  simp [completeTps]

@[simp] theorem completeTps_cons_complete (rid : String) (tc : Nat) (m : CompleteMetrics)
    (msgs : List Msg) :
    completeTps (.complete rid tc m :: msgs) = m.tokens_per_second :: completeTps msgs := by
  simp [completeTps]

@[simp] theorem completeTps_cons_error (d rid : String) (msgs : List Msg) :
    completeTps (.error d rid :: msgs) = completeTps msgs := by
  simp [completeTps]

theorem readLoop_map_msgKind (rid : String) (ct : Nat → ℚ) (cs : List Char) (i cnt : Nat) :
    (readLoop rid ct cs i cnt).map msgKind =
      List.replicate ((cs.filter passesTokenFilter).length) MsgKind.token := by
  induction cs generalizing i cnt with
  | nil => simp [readLoop]
  | cons c cs ih =>
    by_cases h : passesTokenFilter c
    · simp [readLoop, h, msgKind, List.filter_cons, ih, List.replicate_succ]
    · simp [readLoop, h, List.filter_cons, ih]

theorem tokenContents_readLoop (rid : String) (ct : Nat → ℚ) (cs : List Char) (i cnt : Nat) :
    tokenContents (readLoop rid ct cs i cnt) = cs.filter passesTokenFilter := by
  induction cs generalizing i cnt with
  | nil => simp [readLoop]
  | cons c cs ih =>
    by_cases h : passesTokenFilter c <;> simp [readLoop, h, List.filter_cons, ih]

theorem tokenIndices_readLoop (rid : String) (ct : Nat → ℚ) (cs : List Char) (i cnt : Nat) :
    tokenIndices (readLoop rid ct cs i cnt) =
      List.range' (cnt + 1) ((cs.filter passesTokenFilter).length) := by
  induction cs generalizing i cnt with
  | nil => simp [readLoop]
  | cons c cs ih =>
    by_cases h : passesTokenFilter c <;>
      simp [readLoop, h, List.filter_cons, ih, List.range'_succ]

theorem completeCounts_readLoop (rid : String) (ct : Nat → ℚ) (cs : List Char) (i cnt : Nat) :
    completeCounts (readLoop rid ct cs i cnt) = [] := by
  induction cs generalizing i cnt with
  | nil => simp [readLoop]
  | cons c cs ih =>
    by_cases h : passesTokenFilter c <;> simp [readLoop, h, ih]

theorem completeTps_readLoop (rid : String) (ct : Nat → ℚ) (cs : List Char) (i cnt : Nat) :
    completeTps (readLoop rid ct cs i cnt) = [] := by
  induction cs generalizing i cnt with
  | nil => simp [readLoop]
  | cons c cs ih =>
    by_cases h : passesTokenFilter c <;> simp [readLoop, h, ih]

theorem worker_loop_append (a b : List (Option PyVal × RunEnv)) :
    worker_loop (a ++ b) = worker_loop a ++ worker_loop b := by
  induction a with
  | nil => simp [worker_loop]
  | cons j rest ih => simp [worker_loop, ih]

/-- C1: for every accepted request, the sequence of messages the driver
publishes on that request's channel matches `start token* (complete | error)`:
exactly one `start` first, then zero or more `token` messages, then exactly
one terminal message, never two terminals, never a `token` after a terminal. -/
theorem C1_message_pattern (env : RunEnv) (rid : String) :
    ∃ n t, (driverMsgs env rid).map msgKind =
        MsgKind.start :: (List.replicate n MsgKind.token ++ [t]) ∧
      (t = MsgKind.complete ∨ t = MsgKind.error) := by
  unfold driverMsgs stream_inference
  rcases env.fail with _ | fp
  · rcases hp : parse_llama_metrics env.stderr with e | lm
    · exact ⟨(env.output.filter passesTokenFilter).length, .error,
        by simp [hp, readLoop_map_msgKind, msgKind], Or.inr rfl⟩
    · exact ⟨(env.output.filter passesTokenFilter).length, .complete,
        by simp [hp, readLoop_map_msgKind, msgKind], Or.inl rfl⟩
  · cases fp with
    | launch => exact ⟨0, .error, by simp [msgKind], Or.inr rfl⟩
    | read k =>
      exact ⟨((env.output.take k).filter passesTokenFilter).length, .error,
        by simp [readLoop_map_msgKind, msgKind], Or.inr rfl⟩
    | wait =>
      exact ⟨(env.output.filter passesTokenFilter).length, .error,
        by simp [readLoop_map_msgKind, msgKind], Or.inr rfl⟩

/-- Run in which the subprocess emits the bell control character between two
letters; `'\x07'.isprintable()` is false and the character is not newline,
tab or space, so the worker drops it from the token stream (worker.py
line 250) while still appending it to `full_output`. -/
def C2env : RunEnv :=
  { output := ['a', Char.ofNat 7, 'b'], stderr := "", job_start := 0,
    charTime := fun _ => 0, end_time := 1, fail := none, errMsg := "" }

/-- C2, counterexample: the concatenated contents of the token messages do
not reconstruct the raw subprocess output — the non-printable unit read
between `a` and `b` is published by no token message. -/
theorem C2_counterexample :
    tokenContents (driverMsgs C2env "r") ≠ C2env.output := by decide

/-- C2, amended: the unit granularity and ordering hold, but only for units
passing the worker's printability filter: on a run without an I/O failure the
token-message contents, in publish order, are exactly the subprocess's output
characters that are printable, newline or tab — characters failing the filter
are read but never published. -/
theorem C2_stream_reconstruction (env : RunEnv) (rid : String)
    (h : env.fail = none) :
    tokenContents (driverMsgs env rid) = env.output.filter passesTokenFilter := by
  unfold driverMsgs stream_inference
  rw [h]
  rcases hp : parse_llama_metrics env.stderr with e | lm <;>
    simp [hp, tokenContents_readLoop]

/-- C2, witness for the amended theorem at the concrete bell-character run. -/
theorem C2_witness :
    tokenContents (driverMsgs C2env "r") = C2env.output.filter passesTokenFilter :=
  C2_stream_reconstruction C2env "r" rfl

/-- Successful two-character run used to witness C4. -/
def C4env : RunEnv :=
  { output := ['a', 'b'], stderr := "", job_start := 0,
    charTime := fun _ => 0, end_time := 1, fail := none, errMsg := "" }

/-- C4: in every driver run the `token_index` values published on the
request's channel are exactly 1, 2, 3, … in order (strictly increasing by 1
starting at 1), and any `complete` message carries `token_count` equal to the
number of token messages published. -/
theorem C4_token_indices (env : RunEnv) (rid : String) :
    tokenIndices (driverMsgs env rid) =
        List.range' 1 ((tokenIndices (driverMsgs env rid)).length) ∧
      ∀ tc ∈ completeCounts (driverMsgs env rid),
        tc = (tokenIndices (driverMsgs env rid)).length := by
  unfold driverMsgs stream_inference
  rcases hf : env.fail with _ | fp
  · rcases hp : parse_llama_metrics env.stderr with e | lm <;>
      simp [hp, tokenIndices_readLoop, completeCounts_readLoop, List.length_range']
  · cases fp <;>
      simp [tokenIndices_readLoop, completeCounts_readLoop, List.length_range']

/-- C4, witness: on the concrete two-token run the indices are `[1, 2]` and
the published `complete` carries `token_count = 2`, the number of tokens. -/
theorem C4_witness :
    tokenIndices (driverMsgs C4env "r") =
        List.range' 1 ((tokenIndices (driverMsgs C4env "r")).length) ∧
      (2 : Nat) = (tokenIndices (driverMsgs C4env "r")).length :=
  ⟨(C4_token_indices C4env "r").1, (C4_token_indices C4env "r").2 2 (by decide)⟩

/-- Two-token run with explicit read times: characters are read at times 1
and 2, but the worker only records `end_time` (here 5) after the process
exits, so its `generation_time` is 4, not the last-minus-first-token span 1. -/
def C5env : RunEnv :=
  { output := ['a', 'b'], stderr := "", job_start := 0,
    charTime := fun i => if i = 0 then 1 else 2, end_time := 5, fail := none,
    errMsg := "" }

/-- C5, counterexample: the published `tokens_per_second` is not
`token_count / (time of last token - time of first token)` — on this run that
quotient is `2 / (2 - 1) = 2`, while the worker publishes
`round2 (2 / (5 - 1)) = 0.5`, because its denominator runs to the post-exit
`end_time`. -/
theorem C5_counterexample :
    completeTps (driverMsgs C5env "r") ≠
      [((completeCounts (driverMsgs C5env "r")).headI : ℚ) /
        ((tokenTimes (driverMsgs C5env "r")).getLast?.getD 0 -
          (tokenTimes (driverMsgs C5env "r")).head?.getD 0)] := by
  have hp : parse_llama_metrics "" = Except.ok {} := rfl
  have hms : driverMsgs C5env "r" =
      [.start "r" 0, .token 'a' "r" 1 1, .token 'b' "r" 2 2,
       .complete "r" 2 (driverMetrics C5env 2 {})] := by
    unfold driverMsgs stream_inference
    simp [hp, C5env, readLoop, show passesTokenFilter 'a' = true from rfl,
      show passesTokenFilter 'b' = true from rfl,
      show List.filter passesTokenFilter ['a', 'b'] = ['a', 'b'] from rfl]
  have h2 : (driverMetrics C5env 2 {}).tokens_per_second = 1 / 2 := by
    have hg : generationTime C5env = 4 := by
      simp [generationTime, firstTokenTime, C5env,
        show pyIsSpace 'a' = false from rfl]
      norm_num
    simp [driverMetrics, hg]
    norm_num [round2, roundHalfEven]
  rw [hms]
  simp [h2]
  norm_num

/-- C5, amended: on a completed job the `complete` message's
`tokens_per_second` equals the number of token messages divided by
`generation_time` and rounded to two decimals, where `generation_time` is the
post-exit `end_time` minus the read time of the first non-whitespace
character (total job time when there was none), and `tokens_per_second` is 0
when `generation_time` is not positive. -/
theorem C5_tokens_per_second (env : RunEnv) (rid : String) (lm : LlamaMetrics)
    (h : env.fail = none) (hp : parse_llama_metrics env.stderr = .ok lm) :
    completeTps (driverMsgs env rid) =
      [round2 (if 0 < generationTime env then
        ((tokenContents (driverMsgs env rid)).length : ℚ) / generationTime env
      else 0)] := by
  unfold driverMsgs stream_inference
  rw [h]
  simp [hp, completeTps_readLoop, tokenContents_readLoop, driverMetrics]

/-- C5, witness for the amended theorem at the concrete two-token run. -/
theorem C5_witness :
    completeTps (driverMsgs C5env "r") =
      [round2 (if 0 < generationTime C5env then
        ((tokenContents (driverMsgs C5env "r")).length : ℚ) / generationTime C5env
      else 0)] :=
  C5_tokens_per_second C5env "r" {} rfl rfl

/-- C3: whenever the prompt of a WebSocket generation request is truthy, the
handler's effect sequence is exactly the channel subscription followed by the
queue push of the job with the same request identity — subscribe strictly
precedes enqueue. -/
theorem C3_subscribe_before_enqueue (rid : String) (fields : List (String × PyVal))
    (h : pyTruthy (dictGetD fields "prompt" (.vStr "")) = true) :
    websocket_generate_begin rid fields =
      [.subscribe (channelFor rid),
       .rpush QUEUE_NAME ⟨rid, dictGetD fields "prompt" (.vStr ""),
         dictGetD fields "max_tokens" (.vInt DEFAULT_MAX_TOKENS)⟩] := by
  simp [websocket_generate_begin, h]

/-- C3, witness at a concrete non-empty prompt. -/
theorem C3_witness :
    websocket_generate_begin "r" [("prompt", PyVal.vStr "hi")] =
      [.subscribe (channelFor "r"),
       .rpush QUEUE_NAME ⟨"r", PyVal.vStr "hi", PyVal.vInt DEFAULT_MAX_TOKENS⟩] :=
  C3_subscribe_before_enqueue "r" [("prompt", PyVal.vStr "hi")] rfl

/-- C6, counterexample: the REST submission interface does not reject an
empty prompt — `api_generate` with `prompt = ""` performs a queue push, so a
Job is created and the Job Queue depth changes. -/
theorem C6_counterexample : queuePushes (api_generate "r" "" 2048) ≠ 0 := by decide

/-- C6, amended: the WebSocket interface rejects an empty or missing prompt
synchronously with an error reply and no queue or bus interaction, but the
REST interface only rejects a missing prompt through request-model
validation and enqueues a Job even when the prompt is the empty string. -/
theorem C6_empty_prompt (rid p : String) (mt : Int) (fields : List (String × PyVal))
    (h : pyTruthy (dictGetD fields "prompt" (.vStr "")) = false) :
    websocket_generate_begin rid fields = [.wsSendError "Prompt is required"] ∧
      queuePushes (websocket_generate_begin rid fields) = 0 ∧
      busSubscribes (websocket_generate_begin rid fields) = 0 ∧
      api_generate rid p mt = [.rpush QUEUE_NAME ⟨rid, .vStr p, .vInt mt⟩] := by
  refine ⟨?_, ?_, ?_, rfl⟩ <;>
    simp [websocket_generate_begin, h, queuePushes, busSubscribes]

/-- C6, witness: request with no prompt field on the WebSocket side, empty
prompt on the REST side. -/
theorem C6_witness :
    websocket_generate_begin "r" [] = [GwEffect.wsSendError "Prompt is required"] ∧
      queuePushes (websocket_generate_begin "r" []) = 0 ∧
      busSubscribes (websocket_generate_begin "r" []) = 0 ∧
      api_generate "r" "" 2048 = [.rpush QUEUE_NAME ⟨"r", PyVal.vStr "", PyVal.vInt 2048⟩] :=
  C6_empty_prompt "r" "" 2048 [] rfl

/-- Stderr text on which `float()` raises inside `parse_llama_metrics`: the
`[\d.]+` class happily captures `1.2.3`, which is not a valid float literal. -/
def C7stderr : String := "prompt eval time = 1.2.3 ms / 5 tokens ( 4.5 tokens per second)"

/-- Run whose subprocess produces no stdout and the malformed stderr above. -/
def C7env : RunEnv :=
  { output := [], stderr := C7stderr, job_start := 0,
    charTime := fun _ => 0, end_time := 1, fail := none, errMsg := "" }

/-- C7: the claim (and spec) say diagnostic parsing must never raise, but
`parse_llama_metrics` raises `ValueError` on this input — the prompt-eval
pattern matches with capture `1.2.3` and `float("1.2.3")` fails — so the run
publishes `error` instead of `complete`, aborting completion. -/
theorem C7_parse_raises :
    parse_llama_metrics C7stderr =
        .error "could not convert string to float: 1.2.3" ∧
      (driverMsgs C7env "r").map msgKind = [MsgKind.start, MsgKind.error] := by
  constructor
  · rfl
  · rfl

/-- Filesystem state with an existing but empty (0-byte) model file and a
non-executable generation binary whose sibling `llama-cli` still runs. -/
def C8fs : WorkerFS :=
  { completion_exists := true, completion_executable := false,
    llama_cli_runs := some "b1234", model_exists := true, model_size := 0 }

/-- C8, counterexample: with an empty model artifact (and a non-executable
generation binary), the driver does not exit — both startup checks pass and
the dequeue loop runs, because `verify_model` only tests existence and
`verify_llama_binary` never tests executability of `llama-completion`. -/
theorem C8_counterexample :
    worker_main C8fs [] = MainResult.ran [] ∧ C8fs.model_size = 0 ∧
      C8fs.completion_executable = false := by decide

/-- C8, amended: before its loop the driver verifies that the generation
binary file exists and that the companion `llama-cli --version` probe runs,
and that the model file exists (size is only logged, emptiness is not
checked; executability of the generation binary itself is not checked); if
any of these three checks fails the driver exits with status 1 without
processing any job. -/
theorem C8_startup_checks (fs : WorkerFS) (jobs : List (Option PyVal × RunEnv))
    (h : fs.completion_exists = false ∨ fs.llama_cli_runs = none ∨
      fs.model_exists = false) :
    worker_main fs jobs = .exited 1 := by
  rcases h with h | h | h
  · simp [worker_main, verify_llama_binary, h]
  · simp [worker_main, verify_llama_binary, h]
  · by_cases hb : verify_llama_binary fs <;> simp [worker_main, verify_model, hb, h]

/-- Filesystem state with everything missing. -/
def C8fs2 : WorkerFS :=
  { completion_exists := false, completion_executable := false,
    llama_cli_runs := none, model_exists := false, model_size := 0 }

/-- C8, witness for the amended theorem. -/
theorem C8_witness : worker_main C8fs2 [] = MainResult.exited 1 :=
  C8_startup_checks C8fs2 [] (Or.inl rfl)

theorem pyTruthy_vStr (s : String) (h : s ≠ "") : pyTruthy (.vStr s) = true := by
  have he : s.isEmpty = false := by
    cases hb : s.isEmpty
    · rfl
    · exact absurd ((String.isEmpty_iff s).mp hb) h
  simp [pyTruthy, he]

/-- C9: when processing a job raises (launch failure or I/O error), the
worker publishes an `error` with a description as the final message on that
request's channel, terminates the subprocess when it is still running (a
mid-read failure; after a launch failure or end-of-stream there is no live
process to kill), and the dequeue loop still serves every other queued job
before and after the failing one. -/
theorem C9_error_isolation (pre post : List (Option PyVal × RunEnv)) (env : RunEnv)
    (rid p : String) (fp : FailPoint)
    (hf : env.fail = some fp) (hr : rid ≠ "") (hp : p ≠ "") :
    worker_loop (pre ++
        (some (PyVal.vDict [("request_id", .vStr rid), ("prompt", .vStr p)]), env)
        :: post) =
        worker_loop pre ++ stream_inference env rid ++ worker_loop post ∧
      (∃ pfx, driverMsgs env rid = pfx ++ [Msg.error env.errMsg rid]) ∧
      (∀ k, fp = .read k → Effect.terminate ∈ stream_inference env rid) := by
  refine ⟨?_, ?_, ?_⟩
  · rw [worker_loop_append]
    simp [worker_loop, process_job, dictGet, pyTruthy_vStr rid hr, pyTruthy_vStr p hp]
  · unfold driverMsgs stream_inference
    rw [hf]
    cases fp with
    | launch => exact ⟨[.start rid env.job_start], by simp⟩
    | read k =>
      exact ⟨.start rid env.job_start :: readLoop rid env.charTime (env.output.take k) 0 0,
        by simp⟩
    | wait =>
      exact ⟨.start rid env.job_start :: readLoop rid env.charTime env.output 0 0,
        by simp⟩
  · intro k hk
    subst hk
    simp [stream_inference, hf]

/-- Environment of a job whose very first read raises an I/O error. -/
def C9env : RunEnv :=
  { output := ['a'], stderr := "", job_start := 0,
    charTime := fun _ => 0, end_time := 1, fail := some (.read 0), errMsg := "boom" }

/-- C9, witness at a concrete failing job alone in the queue. -/
theorem C9_witness :
    worker_loop ([] ++
        (some (PyVal.vDict [("request_id", .vStr "r"), ("prompt", .vStr "hi")]), C9env)
        :: []) =
        worker_loop [] ++ stream_inference C9env "r" ++ worker_loop [] ∧
      (∃ pfx, driverMsgs C9env "r" = pfx ++ [Msg.error C9env.errMsg "r"]) ∧
      (∀ k, FailPoint.read 0 = .read k → Effect.terminate ∈ stream_inference C9env "r") :=
  C9_error_isolation [] [] C9env "r" "hi" (.read 0) rfl (by decide) (by decide)

/-- C10: a queue entry that is not valid JSON, or whose decoded object lacks
a `request_id` or a `prompt` key, produces no message on any channel and no
other effect — the worker logs and returns to its dequeue loop. -/
theorem C10_invalid_job_silent (decoded : Option PyVal) (env : RunEnv)
    (h : decoded = none ∨ ∃ fields, decoded = some (.vDict fields) ∧
        (dictGet fields "request_id" = .vNone ∨ dictGet fields "prompt" = .vNone)) :
    process_job decoded env = [] := by
  rcases h with h | ⟨fields, hd, h⟩
  · rw [h]
    rfl
  · subst hd
    rcases h with h | h <;> simp [process_job, h, pyTruthy]

/-- Environment for the invalid-entry witness (never reached by the run). -/
def C10env : RunEnv :=
  { output := [], stderr := "", job_start := 0,
    charTime := fun _ => 0, end_time := 0, fail := none, errMsg := "" }

/-- C10, witness: a queue entry that fails JSON decoding publishes nothing. -/
theorem C10_witness : process_job none C10env = [] :=
  C10_invalid_job_silent none C10env (Or.inl rfl)

end Flux
